import Mathlib

/-! The init scaffolder of kubebuilder (`pkg/scaffold/init.go`)

A shallow embedding of `initScaffolder` and its `Scaffold` method.

* Go `string` and `[]byte` values are byte sequences (`GoString`).
* The method runs against collaborators that live in other packages
  (`config.Save`, `machinery.Scaffold.Execute`, `ioutil.ReadFile`,
  `fmt.Println`).  Their behaviour is a parameter (`Collaborators`); they act
  on an abstract world `W` (the filesystem).
* Every call to a collaborator is appended, with its outcome, to a trace, so
  that "how often" and "in which order" can be stated.
* The receiver is a pointer in Go; here `Scaffold` returns the updated
  scaffolder, which makes a re-run on the same scaffolder expressible.
-/

namespace Kubebuilder

set_option linter.dupNamespace false

/-! ## Values -/

/-- A Go string (or byte slice): a finite sequence of bytes. -/
abbrev GoString := List UInt8

/-- The bytes of a string literal of the Go source (Go source text is UTF-8). -/
def lit (s : String) : GoString := s.toUTF8.data.toList

/-- Modelled from the spec: the project schema version, "an enum {v1, v2}"; any
other persisted value is unrecognized.  The declaration lives in
`pkg/model/config`. -/
inductive ProjectVersion where
  | v1
  | v2
  | unrecognized (raw : GoString)
  deriving DecidableEq, Repr

/-- Modelled from the spec: `pkg/model/config.Config`, the "structured project
settings (schema version, repository path, domain, resource kinds already
declared)". -/
structure ModelConfig where
  Version : ProjectVersion
  Repo : GoString
  Domain : GoString
  Resources : List GoString
  deriving DecidableEq, Repr

/-- Modelled from the spec: `internal/config.Config`, which embeds the model
configuration (Go: `s.config.Config`) and remembers where it is persisted. -/
structure Config where
  Config : ModelConfig
  path : GoString
  deriving DecidableEq, Repr

/-- Modelled from the spec: `Config.IsV1` of the embedded model configuration,
true exactly for schema version v1. -/
def Config.IsV1 (c : Kubebuilder.Config) : Bool := decide (c.Config.Version = ProjectVersion.v1)

/-- Modelled from the spec: `Config.IsV2` of the embedded model configuration,
true exactly for schema version v2. -/
def Config.IsV2 (c : Kubebuilder.Config) : Bool := decide (c.Config.Version = ProjectVersion.v2)

/-- A Go `error` value.  `collaborator` is an error made outside this file;
`errorf` is the value of `fmt.Errorf(format, arg)` with its one argument. -/
inductive GoError where
  | collaborator (msg : GoString)
  | errorf (format : GoString) (arg : ProjectVersion)
  deriving DecidableEq, Repr

/-- Modelled from the spec: the Context ("Universe"), a bag of configuration and
boilerplate text; the configuration is a pointer, nil until set. -/
structure Universe where
  Config : Option ModelConfig
  Boilerplate : GoString
  deriving DecidableEq, Repr

/-- Functional options of `model.NewUniverse`. -/
inductive UniverseOption where
  | WithConfig (c : ModelConfig)
  | WithBoilerplate (b : GoString)
  deriving DecidableEq, Repr

/-- Effect of one option on the universe under construction. -/
def UniverseOption.apply (u : Universe) : UniverseOption → Universe
  | UniverseOption.WithConfig c => { u with Config := some c }
  | UniverseOption.WithBoilerplate b => { u with Boilerplate := b }

/-- Modelled from the spec: `newContext(config, boilerplateText="")`, pure value
construction: the options are applied in order to the zero universe. -/
def NewUniverse (opts : List UniverseOption) : Universe :=
  opts.foldl UniverseOption.apply { Config := none, Boilerplate := [] }

/-- The `file.Input` embedded in a template unit; only `Path` is ever set here. -/
structure Input where
  Path : GoString
  deriving DecidableEq, Repr

/-- The template units named in `init.go`, one constructor per Go type
(`package_Type`), carrying the fields the source sets; every other field of
the Go struct has its zero value. -/
inductive File where
  | project_Boilerplate (Input : Input) (License Owner : GoString)
  | project_GitIgnore
  | project_AuthProxyRole
  | project_AuthProxyRoleBinding
  | project_KustomizeRBAC
  | scaffoldv1_KustomizeImagePatch
  | metricsauthv1_KustomizePrometheusMetricsPatch
  | metricsauthv1_KustomizeAuthProxyPatch
  | scaffoldv1_AuthProxyService
  | managerv1_Config (Image : GoString)
  | project_Makefile (Image : GoString)
  | project_GopkgToml
  | managerv1_Dockerfile
  | project_Kustomize
  | project_KustomizeManager
  | managerv1_APIs (BoilerplatePath : GoString)
  | managerv1_Controller
  | managerv1_Webhook
  | managerv1_Cmd
  | metricsauthv2_AuthProxyPatch
  | metricsauthv2_AuthProxyService
  | metricsauthv2_ClientClusterRole
  | managerv2_Config (Image : GoString)
  | scaffoldv2_Main
  | scaffoldv2_GoMod (ControllerRuntimeVersion : GoString)
  | scaffoldv2_Makefile (Image BoilerplatePath ControllerToolsVersion : GoString)
  | scaffoldv2_Dockerfile
  | scaffoldv2_Kustomize
  | scaffoldv2_ManagerWebhookPatch
  | scaffoldv2_ManagerRoleBinding
  | scaffoldv2_LeaderElectionRole
  | scaffoldv2_LeaderElectionRoleBinding
  | scaffoldv2_KustomizeRBAC
  | managerv2_Kustomization
  | webhookv2_Kustomization
  | webhookv2_KustomizeConfigWebhook
  | webhookv2_Service
  | webhookv2_InjectCAPatch
  | prometheusv2_Kustomization
  | prometheusv2_ServiceMonitor
  | certmanagerv2_CertManager
  | certmanagerv2_Kustomization
  | certmanagerv2_KustomizeConfig
  deriving DecidableEq, Repr

/-! ## Constants -/

/-- Controller runtime version to be used in the project. -/
def ControllerRuntimeVersion : GoString := lit "v0.4.0"

/-- ControllerTools version to be used in the project. -/
def ControllerToolsVersion : GoString := lit "v0.2.4"

/-- Image name given to the manager and the Makefile. -/
def ImageName : GoString := lit "controller:latest"

/-! ## Collaborators and the trace -/

/-- The collaborators `Scaffold` calls, acting on a world `W`.
`Separator` is `os.PathSeparator`; `Save` is `(*config.Config).Save`;
`Execute` is `machinery.NewScaffold().Execute`; `ReadFile` is
`ioutil.ReadFile`, an observation of the world. -/
structure Collaborators (W : Type) where
  Separator : GoString
  Save : Config → W → Option GoError × W
  Execute : Universe → List File → W → Option GoError × W
  ReadFile : GoString → W → Except GoError GoString

deriving instance DecidableEq for Except

/-- One call to a collaborator, with what it returned. -/
inductive Event where
  | Println (line : GoString)
  | Save (c : Config) (result : Option GoError)
  | Execute (u : Universe) (files : List File) (result : Option GoError)
  | ReadFile (path : GoString) (result : Except GoError GoString)
  deriving DecidableEq, Repr

/-- The world together with the calls made so far (oldest first). -/
structure Sys (W : Type) where
  world : W
  trace : List Event

/-- Go `fmt.Println`: standard output is kept in the trace. -/
def doPrintln {W : Type} (line : GoString) (st : Sys W) : Sys W :=
  { st with trace := st.trace ++ [Event.Println line] }

/-- Go `s.config.Save()`, recorded in the trace. -/
def doSave {W : Type} (env : Collaborators W) (c : Config) (st : Sys W) :
    Option GoError × Sys W :=
  let r := env.Save c st.world
  (r.1, { world := r.2, trace := st.trace ++ [Event.Save c r.1] })

/-- Go `machinery.NewScaffold().Execute(u, files...)`, recorded in the trace. -/
def doExecute {W : Type} (env : Collaborators W) (u : Universe) (files : List File)
    (st : Sys W) : Option GoError × Sys W :=
  let r := env.Execute u files st.world
  (r.1, { world := r.2, trace := st.trace ++ [Event.Execute u files r.1] })

/-- Go `ioutil.ReadFile(path)`, recorded in the trace. -/
def doReadFile {W : Type} (env : Collaborators W) (path : GoString) (st : Sys W) :
    Except GoError GoString × Sys W :=
  let r := env.ReadFile path st.world
  (r, { st with trace := st.trace ++ [Event.ReadFile path r] })

/-- Go `filepath.Join`: the non-empty elements joined by the separator.  (The final
`Clean` is the identity on elements that hold no separator, no dot element
and are not empty, which is all this file joins.) -/
def filepathJoin (sep : GoString) (elems : List GoString) : GoString :=
  List.intercalate sep (elems.filter (fun e => !e.isEmpty))

/-- Go `fmt.Errorf(format, arg)`. -/
def fmtErrorf (format : GoString) (arg : ProjectVersion) : GoError :=
  GoError.errorf format arg

/-! ## The scaffolder -/

/-- The receiver of `Scaffold`. -/
structure initScaffolder where
  config : Config
  boilerplatePath : GoString
  boilerplate : GoString
  license : GoString
  owner : GoString
  deriving DecidableEq, Repr

/-- Go `NewInitScaffolder(config, license, owner)`; `boilerplate` is left at its
zero value, the empty string. -/
def NewInitScaffolder {W : Type} (env : Collaborators W) (config : Config)
    (license owner : GoString) : initScaffolder :=
  { config := config
    boilerplatePath := filepathJoin env.Separator [lit "hack", lit "boilerplate.go.txt"]
    boilerplate := []
    license := license
    owner := owner }

/-- Method `(s *initScaffolder).newUniverse()`. -/
def initScaffolder.newUniverse (s : initScaffolder) : Universe :=
  NewUniverse [UniverseOption.WithConfig s.config.Config,
               UniverseOption.WithBoilerplate s.boilerplate]

/-- The units `scaffoldV1` hands to the executor, in declared order. -/
def initScaffolder.scaffoldV1Files (s : initScaffolder) : List File :=
  [ File.project_KustomizeRBAC,
    File.scaffoldv1_KustomizeImagePatch,
    File.metricsauthv1_KustomizePrometheusMetricsPatch,
    File.metricsauthv1_KustomizeAuthProxyPatch,
    File.scaffoldv1_AuthProxyService,
    File.managerv1_Config ImageName,
    File.project_Makefile ImageName,
    File.project_GopkgToml,
    File.managerv1_Dockerfile,
    File.project_Kustomize,
    File.project_KustomizeManager,
    File.managerv1_APIs s.boilerplatePath,
    File.managerv1_Controller,
    File.managerv1_Webhook,
    File.managerv1_Cmd ]

/-- The units `scaffoldV2` hands to the executor, in declared order. -/
def initScaffolder.scaffoldV2Files (s : initScaffolder) : List File :=
  [ File.metricsauthv2_AuthProxyPatch,
    File.metricsauthv2_AuthProxyService,
    File.metricsauthv2_ClientClusterRole,
    File.managerv2_Config ImageName,
    File.scaffoldv2_Main,
    File.scaffoldv2_GoMod ControllerRuntimeVersion,
    File.scaffoldv2_Makefile ImageName s.boilerplatePath ControllerToolsVersion,
    File.scaffoldv2_Dockerfile,
    File.scaffoldv2_Kustomize,
    File.scaffoldv2_ManagerWebhookPatch,
    File.scaffoldv2_ManagerRoleBinding,
    File.scaffoldv2_LeaderElectionRole,
    File.scaffoldv2_LeaderElectionRoleBinding,
    File.scaffoldv2_KustomizeRBAC,
    File.managerv2_Kustomization,
    File.webhookv2_Kustomization,
    File.webhookv2_KustomizeConfigWebhook,
    File.webhookv2_Service,
    File.webhookv2_InjectCAPatch,
    File.prometheusv2_Kustomization,
    File.prometheusv2_ServiceMonitor,
    File.certmanagerv2_CertManager,
    File.certmanagerv2_Kustomization,
    File.certmanagerv2_KustomizeConfig ]

/-- Method `(s *initScaffolder).scaffoldV1()`. -/
def initScaffolder.scaffoldV1 {W : Type} (env : Collaborators W) (s : initScaffolder)
    (st : Sys W) : Option GoError × Sys W :=
  doExecute env s.newUniverse s.scaffoldV1Files st

/-- Method `(s *initScaffolder).scaffoldV2()`. -/
def initScaffolder.scaffoldV2 {W : Type} (env : Collaborators W) (s : initScaffolder)
    (st : Sys W) : Option GoError × Sys W :=
  doExecute env s.newUniverse s.scaffoldV2Files st

/-- What a run of `Scaffold` leaves behind: the returned error (none for nil),
the scaffolder behind the receiver pointer, and the world with its trace. -/
structure Outcome (W : Type) where
  err : Option GoError
  s : initScaffolder
  sys : Sys W

/-- Method `(s *initScaffolder).Scaffold()`. -/
def initScaffolder.Scaffold {W : Type} (env : Collaborators W) (s : initScaffolder)
    (st : Sys W) : Outcome W :=
  let st := doPrintln (lit "Writing scaffold for you to edit...") st
  match doSave env s.config st with
  | (some err, st) => { err := some err, s := s, sys := st }
  | (none, st) =>
    match doExecute env s.newUniverse
        [File.project_Boilerplate { Path := s.boilerplatePath } s.license s.owner] st with
    | (some err, st) => { err := some err, s := s, sys := st }
    | (none, st) =>
      match doReadFile env s.boilerplatePath st with
      | (Except.error err, st) => { err := some err, s := s, sys := st }
      | (Except.ok boilerplateBytes, st) =>
        let s := { s with boilerplate := boilerplateBytes }
        match doExecute env s.newUniverse
            [File.project_GitIgnore, File.project_AuthProxyRole,
             File.project_AuthProxyRoleBinding] st with
        | (some err, st) => { err := some err, s := s, sys := st }
        | (none, st) =>
          if s.config.IsV1 then
            let r := s.scaffoldV1 env st
            { err := r.1, s := s, sys := r.2 }
          else if s.config.IsV2 then
            let r := s.scaffoldV2 env st
            { err := r.1, s := s, sys := r.2 }
          else
            { err := some (fmtErrorf (lit "unknown project version %v") s.config.Config.Version)
              s := s, sys := st }

/-! ## Observations on a run -/

/-- The calls that one run of `Scaffold` adds to the trace, oldest first. -/
def initScaffolder.calls {W : Type} (env : Collaborators W) (s : initScaffolder)
    (st : Sys W) : List Event :=
  (s.Scaffold env st).sys.trace.drop st.trace.length

/-- The executor invocations among some calls: Context and batch, in order. -/
def executions : List Event → List (Universe × List File)
  | [] => []
  | Event.Execute u files _ :: rest => (u, files) :: executions rest
  | _ :: rest => executions rest

/-- The boilerplate path a unit is given, if it is given one. -/
def File.boilerplatePaths : File → List GoString
  | File.project_Boilerplate inp _ _ => [inp.Path]
  | File.managerv1_APIs p => [p]
  | File.scaffoldv2_Makefile _ p _ => [p]
  | _ => []

/-- The boilerplate paths a call mentions: the path read back, and the paths
given to the units of an executed batch. -/
def Event.boilerplatePaths : Event → List GoString
  | Event.ReadFile path _ => [path]
  | Event.Execute _ files _ => (files.map File.boilerplatePaths).flatten
  | _ => []

/-- A caller that invokes `Scaffold` on the same scaffolder `n` times in a row;
the result is the scaffolder and the world before the next run. -/
def initScaffolder.rerun {W : Type} (env : Collaborators W) :
    Nat → initScaffolder → Sys W → initScaffolder × Sys W
  | 0, s, st => (s, st)
  | n + 1, s, st => initScaffolder.rerun env n (s.Scaffold env st).s (s.Scaffold env st).sys

/-! ## A concrete environment

A small filesystem on which the definitions above can be evaluated. -/

/-- Path and content pairs, newest first. -/
abbrev DemoFS := List (GoString × GoString)

/-- Writing one unit: the boilerplate unit writes license and owner to its
path; the other units leave no file worth tracking here. -/
def demoWrite (writes : Bool) (f : File) (fs : DemoFS) : DemoFS :=
  match f with
  | File.project_Boilerplate inp l o => if writes then (inp.Path, l ++ o) :: fs else fs
  | _ => fs

/-- An executor: units in order, stopping at the first unit marked bad. -/
def demoExecute (bad : File → Bool) (writes : Bool) : List File → DemoFS → Option GoError × DemoFS
  | [], fs => (none, fs)
  | f :: rest, fs =>
    if bad f then (some (GoError.collaborator (lit "unit failed")), fs)
    else demoExecute bad writes rest (demoWrite writes f fs)

/-- Reading a file of the small filesystem. -/
def demoReadFile (path : GoString) (fs : DemoFS) : Except GoError GoString :=
  match fs.lookup path with
  | some content => Except.ok content
  | none => Except.error (GoError.collaborator (lit "no such file"))

/-- Collaborators over the small filesystem: `saveErr` is what `Save` returns,
`bad` marks the units the executor fails on, `writes` tells whether the
boilerplate unit really leaves a file. -/
def demoEnv (saveErr : Option GoError) (bad : File → Bool) (writes : Bool) :
    Collaborators DemoFS :=
  { Separator := lit "/"
    Save := fun _ fs => (saveErr, fs)
    Execute := fun _ files fs => demoExecute bad writes files fs
    ReadFile := demoReadFile }

/-- A configuration of the given schema version. -/
def demoConfig (v : ProjectVersion) : Config :=
  { Config := { Version := v, Repo := lit "demo", Domain := lit "my.domain", Resources := [] }
    path := lit "PROJECT" }

/-- The empty filesystem with no call made yet. -/
def demoStart : Sys DemoFS := { world := [], trace := [] }

/-- The environment in which every collaborator succeeds. -/
def okEnv : Collaborators DemoFS := demoEnv none (fun _ => false) true

/-- A fresh scaffolder of the given schema version. -/
def demoScaffolder (v : ProjectVersion) : initScaffolder :=
  NewInitScaffolder okEnv (demoConfig v) (lit "apache2") (lit "me")

/-- What the boilerplate unit of `demoScaffolder` leaves on disk. -/
def demoText : GoString := lit "apache2me"

/-- The small filesystem once the boilerplate unit of `demoScaffolder` ran. -/
def demoDisk : DemoFS := [(lit "hack/boilerplate.go.txt", demoText)]

/-- The environment whose executor fails on the AuthProxyRole unit. -/
def roleFailsEnv : Collaborators DemoFS :=
  demoEnv none (fun f => decide (f = File.project_AuthProxyRole)) true

/-- An error of the executor of the small filesystem. -/
def unitFailed : GoError := GoError.collaborator (lit "unit failed")

/-! ## The seven paths through `Scaffold`

One equation per way a run can end, in terms of what the collaborators
return. -/

theorem newUniverse_eq (s : initScaffolder) :
    s.newUniverse = { Config := some s.config.Config, Boilerplate := s.boilerplate } := by
  simp [initScaffolder.newUniverse, NewUniverse, UniverseOption.apply]

theorem Scaffold_save_fails {W : Type} (env : Collaborators W) (s : initScaffolder)
    (st : Sys W) (err : GoError) (w1 : W)
    (hS : env.Save s.config st.world = (some err, w1)) :
    s.Scaffold env st =
      { err := some err, s := s,
        sys := { world := w1,
                 trace := st.trace ++
                   [Event.Println (lit "Writing scaffold for you to edit..."),
                    Event.Save s.config (some err)] } } := by
  simp [initScaffolder.Scaffold, doPrintln, doSave, hS]

theorem Scaffold_bootstrap_fails {W : Type} (env : Collaborators W) (s : initScaffolder)
    (st : Sys W) (err : GoError) (w1 w2 : W)
    (hS : env.Save s.config st.world = (none, w1))
    (hB : env.Execute s.newUniverse
        [File.project_Boilerplate { Path := s.boilerplatePath } s.license s.owner] w1
        = (some err, w2)) :
    s.Scaffold env st =
      { err := some err, s := s,
        sys := { world := w2,
                 trace := st.trace ++
                   [Event.Println (lit "Writing scaffold for you to edit..."),
                    Event.Save s.config none,
                    Event.Execute s.newUniverse
                      [File.project_Boilerplate { Path := s.boilerplatePath } s.license s.owner]
                      (some err)] } } := by
  simp [initScaffolder.Scaffold, doPrintln, doSave, doExecute, hS, hB]

theorem Scaffold_read_fails {W : Type} (env : Collaborators W) (s : initScaffolder)
    (st : Sys W) (err : GoError) (w1 w2 : W)
    (hS : env.Save s.config st.world = (none, w1))
    (hB : env.Execute s.newUniverse
        [File.project_Boilerplate { Path := s.boilerplatePath } s.license s.owner] w1
        = (none, w2))
    (hR : env.ReadFile s.boilerplatePath w2 = Except.error err) :
    s.Scaffold env st =
      { err := some err, s := s,
        sys := { world := w2,
                 trace := st.trace ++
                   [Event.Println (lit "Writing scaffold for you to edit..."),
                    Event.Save s.config none,
                    Event.Execute s.newUniverse
                      [File.project_Boilerplate { Path := s.boilerplatePath } s.license s.owner]
                      none,
                    Event.ReadFile s.boilerplatePath (Except.error err)] } } := by
  simp [initScaffolder.Scaffold, doPrintln, doSave, doExecute, doReadFile, hS, hB, hR]

theorem Scaffold_static_fails {W : Type} (env : Collaborators W) (s : initScaffolder)
    (st : Sys W) (err : GoError) (text : GoString) (w1 w2 w3 : W)
    (hS : env.Save s.config st.world = (none, w1))
    (hB : env.Execute s.newUniverse
        [File.project_Boilerplate { Path := s.boilerplatePath } s.license s.owner] w1
        = (none, w2))
    (hR : env.ReadFile s.boilerplatePath w2 = Except.ok text)
    (hG : env.Execute { Config := some s.config.Config, Boilerplate := text }
        [File.project_GitIgnore, File.project_AuthProxyRole,
         File.project_AuthProxyRoleBinding] w2 = (some err, w3)) :
    s.Scaffold env st =
      { err := some err, s := { s with boilerplate := text },
        sys := { world := w3,
                 trace := st.trace ++
                   [Event.Println (lit "Writing scaffold for you to edit..."),
                    Event.Save s.config none,
                    Event.Execute s.newUniverse
                      [File.project_Boilerplate { Path := s.boilerplatePath } s.license s.owner]
                      none,
                    Event.ReadFile s.boilerplatePath (Except.ok text),
                    Event.Execute { Config := some s.config.Config, Boilerplate := text }
                      [File.project_GitIgnore, File.project_AuthProxyRole,
                       File.project_AuthProxyRoleBinding] (some err)] } } := by
  rw [newUniverse_eq] at hB
  simp [initScaffolder.Scaffold, doPrintln, doSave, doExecute, doReadFile, hS, hB, hR,
    newUniverse_eq, hG]

theorem Scaffold_dispatch {W : Type} (env : Collaborators W) (s : initScaffolder)
    (st : Sys W) (text : GoString) (w1 w2 w3 : W)
    (hS : env.Save s.config st.world = (none, w1))
    (hB : env.Execute s.newUniverse
        [File.project_Boilerplate { Path := s.boilerplatePath } s.license s.owner] w1
        = (none, w2))
    (hR : env.ReadFile s.boilerplatePath w2 = Except.ok text)
    (hG : env.Execute { Config := some s.config.Config, Boilerplate := text }
        [File.project_GitIgnore, File.project_AuthProxyRole,
         File.project_AuthProxyRoleBinding] w2 = (none, w3)) :
    s.Scaffold env st =
      if s.config.IsV1 = true ∨ s.config.IsV2 = true then
        { err := (env.Execute { Config := some s.config.Config, Boilerplate := text }
                    (if s.config.IsV1 = true then s.scaffoldV1Files else s.scaffoldV2Files) w3).1,
          s := { s with boilerplate := text },
          sys := { world := (env.Execute { Config := some s.config.Config, Boilerplate := text }
                    (if s.config.IsV1 = true then s.scaffoldV1Files else s.scaffoldV2Files) w3).2,
                   trace := st.trace ++
                     [Event.Println (lit "Writing scaffold for you to edit..."),
                      Event.Save s.config none,
                      Event.Execute s.newUniverse
                        [File.project_Boilerplate { Path := s.boilerplatePath } s.license s.owner]
                        none,
                      Event.ReadFile s.boilerplatePath (Except.ok text),
                      Event.Execute { Config := some s.config.Config, Boilerplate := text }
                        [File.project_GitIgnore, File.project_AuthProxyRole,
                         File.project_AuthProxyRoleBinding] none,
                      Event.Execute { Config := some s.config.Config, Boilerplate := text }
                        (if s.config.IsV1 = true then s.scaffoldV1Files else s.scaffoldV2Files)
                        (env.Execute { Config := some s.config.Config, Boilerplate := text }
                          (if s.config.IsV1 = true then s.scaffoldV1Files
                           else s.scaffoldV2Files) w3).1] } }
      else
        { err := some (fmtErrorf (lit "unknown project version %v") s.config.Config.Version),
          s := { s with boilerplate := text },
          sys := { world := w3,
                   trace := st.trace ++
                     [Event.Println (lit "Writing scaffold for you to edit..."),
                      Event.Save s.config none,
                      Event.Execute s.newUniverse
                        [File.project_Boilerplate { Path := s.boilerplatePath } s.license s.owner]
                        none,
                      Event.ReadFile s.boilerplatePath (Except.ok text),
                      Event.Execute { Config := some s.config.Config, Boilerplate := text }
                        [File.project_GitIgnore, File.project_AuthProxyRole,
                         File.project_AuthProxyRoleBinding] none] } } := by
  rw [newUniverse_eq] at hB
  simp only [initScaffolder.Scaffold, doPrintln, doSave, doExecute, doReadFile, hS, hB, hR,
    newUniverse_eq, hG, initScaffolder.scaffoldV1, initScaffolder.scaffoldV2,
    initScaffolder.scaffoldV1Files, initScaffolder.scaffoldV2Files]
  cases h1 : s.config.IsV1 <;> cases h2 : s.config.IsV2 <;> simp

/-- Every run takes one of six shapes: what is returned, what the scaffolder
holds afterwards, and the calls made, oldest first. -/
theorem Scaffold_paths {W : Type} (env : Collaborators W) (s : initScaffolder) (st : Sys W) :
    (∃ err, (env.Save s.config st.world).1 = some err ∧
      (s.Scaffold env st).err = some err ∧ (s.Scaffold env st).s = s ∧
      s.calls env st =
        [Event.Println (lit "Writing scaffold for you to edit..."),
         Event.Save s.config (some err)]) ∨
    (∃ err, (env.Save s.config st.world).1 = none ∧
      (s.Scaffold env st).err = some err ∧ (s.Scaffold env st).s = s ∧
      s.calls env st =
        [Event.Println (lit "Writing scaffold for you to edit..."),
         Event.Save s.config none,
         Event.Execute s.newUniverse
           [File.project_Boilerplate { Path := s.boilerplatePath } s.license s.owner]
           (some err)]) ∨
    (∃ err, (env.Save s.config st.world).1 = none ∧
      (s.Scaffold env st).err = some err ∧ (s.Scaffold env st).s = s ∧
      s.calls env st =
        [Event.Println (lit "Writing scaffold for you to edit..."),
         Event.Save s.config none,
         Event.Execute s.newUniverse
           [File.project_Boilerplate { Path := s.boilerplatePath } s.license s.owner] none,
         Event.ReadFile s.boilerplatePath (Except.error err)]) ∨
    (∃ err text, (env.Save s.config st.world).1 = none ∧
      env.ReadFile s.boilerplatePath
        (env.Execute s.newUniverse
          [File.project_Boilerplate { Path := s.boilerplatePath } s.license s.owner]
          (env.Save s.config st.world).2).2 = Except.ok text ∧
      (s.Scaffold env st).err = some err ∧
      (s.Scaffold env st).s = { s with boilerplate := text } ∧
      s.calls env st =
        [Event.Println (lit "Writing scaffold for you to edit..."),
         Event.Save s.config none,
         Event.Execute s.newUniverse
           [File.project_Boilerplate { Path := s.boilerplatePath } s.license s.owner] none,
         Event.ReadFile s.boilerplatePath (Except.ok text),
         Event.Execute { Config := some s.config.Config, Boilerplate := text }
           [File.project_GitIgnore, File.project_AuthProxyRole,
            File.project_AuthProxyRoleBinding] (some err)]) ∨
    (∃ text res, (env.Save s.config st.world).1 = none ∧
      env.ReadFile s.boilerplatePath
        (env.Execute s.newUniverse
          [File.project_Boilerplate { Path := s.boilerplatePath } s.license s.owner]
          (env.Save s.config st.world).2).2 = Except.ok text ∧
      (s.config.IsV1 = true ∨ s.config.IsV2 = true) ∧
      (s.Scaffold env st).err = res ∧
      (s.Scaffold env st).s = { s with boilerplate := text } ∧
      s.calls env st =
        [Event.Println (lit "Writing scaffold for you to edit..."),
         Event.Save s.config none,
         Event.Execute s.newUniverse
           [File.project_Boilerplate { Path := s.boilerplatePath } s.license s.owner] none,
         Event.ReadFile s.boilerplatePath (Except.ok text),
         Event.Execute { Config := some s.config.Config, Boilerplate := text }
           [File.project_GitIgnore, File.project_AuthProxyRole,
            File.project_AuthProxyRoleBinding] none,
         Event.Execute { Config := some s.config.Config, Boilerplate := text }
           (if s.config.IsV1 = true then s.scaffoldV1Files else s.scaffoldV2Files) res]) ∨
    (∃ text, (env.Save s.config st.world).1 = none ∧
      env.ReadFile s.boilerplatePath
        (env.Execute s.newUniverse
          [File.project_Boilerplate { Path := s.boilerplatePath } s.license s.owner]
          (env.Save s.config st.world).2).2 = Except.ok text ∧
      s.config.IsV1 = false ∧ s.config.IsV2 = false ∧
      (s.Scaffold env st).err =
        some (fmtErrorf (lit "unknown project version %v") s.config.Config.Version) ∧
      (s.Scaffold env st).s = { s with boilerplate := text } ∧
      s.calls env st =
        [Event.Println (lit "Writing scaffold for you to edit..."),
         Event.Save s.config none,
         Event.Execute s.newUniverse
           [File.project_Boilerplate { Path := s.boilerplatePath } s.license s.owner] none,
         Event.ReadFile s.boilerplatePath (Except.ok text),
         Event.Execute { Config := some s.config.Config, Boilerplate := text }
           [File.project_GitIgnore, File.project_AuthProxyRole,
            File.project_AuthProxyRoleBinding] none]) := by
  rcases hS : env.Save s.config st.world with ⟨_ | e1, w1⟩
  swap
  · left
    exact ⟨e1, rfl, by simp [initScaffolder.calls, Scaffold_save_fails env s st e1 w1 hS]⟩
  right
  rcases hB : env.Execute s.newUniverse
      [File.project_Boilerplate { Path := s.boilerplatePath } s.license s.owner] w1
    with ⟨_ | e2, w2⟩
  swap
  · left
    exact ⟨e2, rfl, by simp [initScaffolder.calls, Scaffold_bootstrap_fails env s st e2 w1 w2 hS hB]⟩
  right
  rcases hR : env.ReadFile s.boilerplatePath w2 with e3 | text
  · left
    exact ⟨e3, rfl, by simp [initScaffolder.calls, Scaffold_read_fails env s st e3 w1 w2 hS hB hR]⟩
  right
  rcases hG : env.Execute { Config := some s.config.Config, Boilerplate := text }
      [File.project_GitIgnore, File.project_AuthProxyRole, File.project_AuthProxyRoleBinding] w2
    with ⟨_ | e4, w3⟩
  swap
  · left
    exact ⟨e4, text, rfl, rfl, by
      simp [initScaffolder.calls, Scaffold_static_fails env s st e4 text w1 w2 w3 hS hB hR hG]⟩
  right
  by_cases hV : s.config.IsV1 = true ∨ s.config.IsV2 = true
  · left
    exact ⟨text, (env.Execute { Config := some s.config.Config, Boilerplate := text }
        (if s.config.IsV1 = true then s.scaffoldV1Files else s.scaffoldV2Files) w3).1,
      rfl, rfl, hV, by
      simp [initScaffolder.calls, Scaffold_dispatch env s st text w1 w2 w3 hS hB hR hG, if_pos hV]⟩
  · right
    have h1 : s.config.IsV1 = false := by
      cases h : s.config.IsV1
      · rfl
      · exact absurd (Or.inl h) hV
    have h2 : s.config.IsV2 = false := by
      cases h : s.config.IsV2
      · rfl
      · exact absurd (Or.inr h) hV
    exact ⟨text, rfl, rfl, h1, h2, by
      simp [initScaffolder.calls, Scaffold_dispatch env s st text w1 w2 w3 hS hB hR hG, if_neg hV]⟩

/-! ## Facts about the catalogs -/

theorem v1Files_not_in_v2Files (s t : initScaffolder) :
    ∀ f ∈ s.scaffoldV1Files, f ∉ t.scaffoldV2Files := by
  intro f hf
  simp only [initScaffolder.scaffoldV1Files, List.mem_cons, List.mem_singleton,
    List.not_mem_nil, or_false] at hf
  rcases hf with h | h | h | h | h | h | h | h | h | h | h | h | h | h | h <;>
    subst h <;> simp [initScaffolder.scaffoldV2Files]

theorem v2Files_not_in_v1Files (s t : initScaffolder) :
    ∀ f ∈ s.scaffoldV2Files, f ∉ t.scaffoldV1Files := by
  intro f hf hf1
  exact v1Files_not_in_v2Files t s f hf1 hf

theorem bootstrap_not_in_catalogs (s : initScaffolder) (inp : Input) (l o : GoString) :
    File.project_Boilerplate inp l o ∉ s.scaffoldV1Files ∧
    File.project_Boilerplate inp l o ∉ s.scaffoldV2Files := by
  simp [initScaffolder.scaffoldV1Files, initScaffolder.scaffoldV2Files]

theorem static_not_in_catalogs (s : initScaffolder) :
    ∀ f ∈ [File.project_GitIgnore, File.project_AuthProxyRole,
           File.project_AuthProxyRoleBinding],
      f ∉ s.scaffoldV1Files ∧ f ∉ s.scaffoldV2Files := by
  intro f hf
  simp only [List.mem_cons, List.mem_singleton, List.not_mem_nil, or_false] at hf
  rcases hf with h | h | h <;> subst h <;>
    simp [initScaffolder.scaffoldV1Files, initScaffolder.scaffoldV2Files]

/-! ## The claims -/

/-- C1: in every run of Scaffold the configuration is saved exactly once, and
that call comes right after the greeting, before every other collaborator call
and so before any executor invocation; if Save returns an error, Scaffold
returns that same error and the run makes no further call: no executor
invocation and no boilerplate read-back. -/
theorem C1_save_once_before_rendering {W : Type} (env : Collaborators W)
    (s : initScaffolder) (st : Sys W) :
    (∃ rest, s.calls env st =
        Event.Println (lit "Writing scaffold for you to edit...") ::
          Event.Save s.config (env.Save s.config st.world).1 :: rest ∧
        (∀ c res, Event.Save c res ∉ rest)) ∧
    (∀ err, (env.Save s.config st.world).1 = some err →
        (s.Scaffold env st).err = some err ∧
        s.calls env st =
          [Event.Println (lit "Writing scaffold for you to edit..."),
           Event.Save s.config (some err)]) := by
  rcases Scaffold_paths env s st with
    ⟨e, hs, he, -, hc⟩ | ⟨e, hs, he, -, hc⟩ | ⟨e, hs, he, -, hc⟩ |
    ⟨e, t, hs, -, he, -, hc⟩ | ⟨t, r, hs, -, -, he, -, hc⟩ | ⟨t, hs, -, -, -, he, -, hc⟩ <;>
  · rw [hc, hs]
    refine ⟨⟨_, rfl, by simp⟩, ?_⟩
    intro err herr
    simp_all

/-- Witness for C1: a store that cannot be written. -/
theorem C1_save_once_before_rendering_witness :
    ((demoEnv (some (GoError.collaborator (lit "read-only"))) (fun _ => false) true).Save
        (demoScaffolder ProjectVersion.v1).config demoStart.world).1
      = some (GoError.collaborator (lit "read-only")) ∧
    ((demoScaffolder ProjectVersion.v1).Scaffold
        (demoEnv (some (GoError.collaborator (lit "read-only"))) (fun _ => false) true)
        demoStart).err = some (GoError.collaborator (lit "read-only")) ∧
    (demoScaffolder ProjectVersion.v1).calls
        (demoEnv (some (GoError.collaborator (lit "read-only"))) (fun _ => false) true)
        demoStart =
      [Event.Println (lit "Writing scaffold for you to edit..."),
       Event.Save (demoScaffolder ProjectVersion.v1).config
         (some (GoError.collaborator (lit "read-only")))] :=
  ⟨rfl, (C1_save_once_before_rendering
      (demoEnv (some (GoError.collaborator (lit "read-only"))) (fun _ => false) true)
      (demoScaffolder ProjectVersion.v1) demoStart).2
      (GoError.collaborator (lit "read-only")) rfl⟩

/-- C2: version dispatch.  When Save, the bootstrap batch, the read-back and the
static batch all succeed, then: for schema version v1 the last call is one
executor invocation on exactly the v1 catalog (15 units, in declared order),
its result is the result of Scaffold, and no executed unit belongs to the v2
catalog; for v2 the same with the v2 catalog (24 units) and no executed unit
of the v1 catalog; for any other version no unit of either catalog is
executed and Scaffold returns the unknown-version error. -/
theorem C2_version_dispatch {W : Type} (env : Collaborators W) (s : initScaffolder)
    (st : Sys W) (text : GoString) (w1 w2 w3 : W)
    (hS : env.Save s.config st.world = (none, w1))
    (hB : env.Execute s.newUniverse
        [File.project_Boilerplate { Path := s.boilerplatePath } s.license s.owner] w1
        = (none, w2))
    (hR : env.ReadFile s.boilerplatePath w2 = Except.ok text)
    (hG : env.Execute { Config := some s.config.Config, Boilerplate := text }
        [File.project_GitIgnore, File.project_AuthProxyRole,
         File.project_AuthProxyRoleBinding] w2 = (none, w3)) :
    (s.config.Config.Version = ProjectVersion.v1 →
      s.calls env st =
        [Event.Println (lit "Writing scaffold for you to edit..."),
         Event.Save s.config none,
         Event.Execute s.newUniverse
           [File.project_Boilerplate { Path := s.boilerplatePath } s.license s.owner] none,
         Event.ReadFile s.boilerplatePath (Except.ok text),
         Event.Execute { Config := some s.config.Config, Boilerplate := text }
           [File.project_GitIgnore, File.project_AuthProxyRole,
            File.project_AuthProxyRoleBinding] none,
         Event.Execute { Config := some s.config.Config, Boilerplate := text }
           s.scaffoldV1Files
           (env.Execute { Config := some s.config.Config, Boilerplate := text }
             s.scaffoldV1Files w3).1] ∧
      (s.Scaffold env st).err =
        (env.Execute { Config := some s.config.Config, Boilerplate := text }
          s.scaffoldV1Files w3).1 ∧
      (∀ u files res, Event.Execute u files res ∈ s.calls env st →
        ∀ f ∈ files, f ∉ s.scaffoldV2Files)) ∧
    (s.config.Config.Version = ProjectVersion.v2 →
      s.calls env st =
        [Event.Println (lit "Writing scaffold for you to edit..."),
         Event.Save s.config none,
         Event.Execute s.newUniverse
           [File.project_Boilerplate { Path := s.boilerplatePath } s.license s.owner] none,
         Event.ReadFile s.boilerplatePath (Except.ok text),
         Event.Execute { Config := some s.config.Config, Boilerplate := text }
           [File.project_GitIgnore, File.project_AuthProxyRole,
            File.project_AuthProxyRoleBinding] none,
         Event.Execute { Config := some s.config.Config, Boilerplate := text }
           s.scaffoldV2Files
           (env.Execute { Config := some s.config.Config, Boilerplate := text }
             s.scaffoldV2Files w3).1] ∧
      (s.Scaffold env st).err =
        (env.Execute { Config := some s.config.Config, Boilerplate := text }
          s.scaffoldV2Files w3).1 ∧
      (∀ u files res, Event.Execute u files res ∈ s.calls env st →
        ∀ f ∈ files, f ∉ s.scaffoldV1Files)) ∧
    (s.config.Config.Version ≠ ProjectVersion.v1 →
      s.config.Config.Version ≠ ProjectVersion.v2 →
      s.calls env st =
        [Event.Println (lit "Writing scaffold for you to edit..."),
         Event.Save s.config none,
         Event.Execute s.newUniverse
           [File.project_Boilerplate { Path := s.boilerplatePath } s.license s.owner] none,
         Event.ReadFile s.boilerplatePath (Except.ok text),
         Event.Execute { Config := some s.config.Config, Boilerplate := text }
           [File.project_GitIgnore, File.project_AuthProxyRole,
            File.project_AuthProxyRoleBinding] none] ∧
      (s.Scaffold env st).err =
        some (fmtErrorf (lit "unknown project version %v") s.config.Config.Version) ∧
      (∀ u files res, Event.Execute u files res ∈ s.calls env st →
        ∀ f ∈ files, f ∉ s.scaffoldV1Files ∧ f ∉ s.scaffoldV2Files)) ∧
    s.scaffoldV1Files.length = 15 ∧ s.scaffoldV2Files.length = 24 := by
  have hD := Scaffold_dispatch env s st text w1 w2 w3 hS hB hR hG
  refine ⟨?_, ?_, ?_, rfl, rfl⟩
  · intro hv
    have h1 : s.config.IsV1 = true := by simp [Config.IsV1, hv]
    refine ⟨by simp [initScaffolder.calls, hD, h1], by simp [hD, h1], ?_⟩
    intro u files res hmem f hf
    simp only [initScaffolder.calls, hD, h1, true_or, if_true, List.drop_left, List.mem_cons, List.mem_singleton, List.not_mem_nil, or_false,
      Event.Execute.injEq, false_or, reduceCtorEq, false_and] at hmem
    rcases hmem with ⟨-, rfl, -⟩ | ⟨-, rfl, -⟩ | ⟨-, rfl, -⟩
    · simp only [List.mem_singleton] at hf
      subst hf
      exact (bootstrap_not_in_catalogs s _ _ _).2
    · exact (static_not_in_catalogs s f hf).2
    · exact v1Files_not_in_v2Files s s f hf
  · intro hv
    have h1 : s.config.IsV1 = false := by simp [Config.IsV1, hv]
    have h2 : s.config.IsV2 = true := by simp [Config.IsV2, hv]
    refine ⟨by simp [initScaffolder.calls, hD, h1, h2], by simp [hD, h1, h2], ?_⟩
    intro u files res hmem f hf
    simp only [initScaffolder.calls, hD, h1, h2, or_true, if_true, Bool.false_eq_true,
      if_false, List.drop_left, List.mem_cons, List.mem_singleton, List.not_mem_nil, or_false,
      Event.Execute.injEq, false_or, reduceCtorEq, false_and] at hmem
    rcases hmem with ⟨-, rfl, -⟩ | ⟨-, rfl, -⟩ | ⟨-, rfl, -⟩
    · simp only [List.mem_singleton] at hf
      subst hf
      exact (bootstrap_not_in_catalogs s _ _ _).1
    · exact (static_not_in_catalogs s f hf).1
    · exact v2Files_not_in_v1Files s s f hf
  · intro hv1 hv2
    have h1 : s.config.IsV1 = false := by simp [Config.IsV1, hv1]
    have h2 : s.config.IsV2 = false := by simp [Config.IsV2, hv2]
    refine ⟨by simp [initScaffolder.calls, hD, h1, h2], by simp [hD, h1, h2], ?_⟩
    intro u files res hmem f hf
    simp only [initScaffolder.calls, hD, h1, h2, or_self, Bool.false_eq_true,
      if_false, List.drop_left, List.mem_cons, List.mem_singleton, List.not_mem_nil, or_false,
      Event.Execute.injEq, false_or, reduceCtorEq, false_and] at hmem
    rcases hmem with ⟨-, rfl, -⟩ | ⟨-, rfl, -⟩
    · simp only [List.mem_singleton] at hf
      subst hf
      exact bootstrap_not_in_catalogs s _ _ _
    · exact static_not_in_catalogs s f hf

/-- Witness for C2: the three kinds of schema version on the small filesystem. -/
theorem C2_version_dispatch_witness :
    (okEnv.Save (demoScaffolder ProjectVersion.v1).config demoStart.world = (none, []) ∧
     okEnv.Execute (demoScaffolder ProjectVersion.v1).newUniverse
        [File.project_Boilerplate { Path := (demoScaffolder ProjectVersion.v1).boilerplatePath }
          (demoScaffolder ProjectVersion.v1).license (demoScaffolder ProjectVersion.v1).owner] []
        = (none, demoDisk) ∧
     okEnv.ReadFile (demoScaffolder ProjectVersion.v1).boilerplatePath demoDisk
        = Except.ok demoText ∧
     okEnv.Execute
        { Config := some (demoScaffolder ProjectVersion.v1).config.Config, Boilerplate := demoText }
        [File.project_GitIgnore, File.project_AuthProxyRole,
         File.project_AuthProxyRoleBinding] demoDisk = (none, demoDisk)) ∧
    ((demoScaffolder ProjectVersion.v1).Scaffold okEnv demoStart).err =
      (okEnv.Execute
        { Config := some (demoScaffolder ProjectVersion.v1).config.Config, Boilerplate := demoText }
        (demoScaffolder ProjectVersion.v1).scaffoldV1Files demoDisk).1 ∧
    ((demoScaffolder ProjectVersion.v2).Scaffold okEnv demoStart).err =
      (okEnv.Execute
        { Config := some (demoScaffolder ProjectVersion.v2).config.Config, Boilerplate := demoText }
        (demoScaffolder ProjectVersion.v2).scaffoldV2Files demoDisk).1 ∧
    ((demoScaffolder (ProjectVersion.unrecognized (lit "3"))).Scaffold okEnv demoStart).err =
      some (fmtErrorf (lit "unknown project version %v")
        (ProjectVersion.unrecognized (lit "3"))) :=
  ⟨⟨rfl, rfl, rfl, rfl⟩,
   ((C2_version_dispatch okEnv (demoScaffolder ProjectVersion.v1) demoStart demoText
      [] demoDisk demoDisk rfl rfl rfl rfl).1 rfl).2.1,
   ((C2_version_dispatch okEnv (demoScaffolder ProjectVersion.v2) demoStart demoText
      [] demoDisk demoDisk rfl rfl rfl rfl).2.1 rfl).2.1,
   ((C2_version_dispatch okEnv (demoScaffolder (ProjectVersion.unrecognized (lit "3")))
      demoStart demoText [] demoDisk demoDisk rfl rfl rfl rfl).2.2.1
      (by decide) (by decide)).2.1⟩

/-- Counterexample to C3 as stated: with a schema version that is neither v1
nor v2, an executor invocation does follow the read-back, and its Context
carries the loaded (non-empty) boilerplate text. -/
theorem C3_counterexample :
    (demoScaffolder (ProjectVersion.unrecognized (lit "3"))).config.Config.Version
        ≠ ProjectVersion.v1 ∧
    (demoScaffolder (ProjectVersion.unrecognized (lit "3"))).config.Config.Version
        ≠ ProjectVersion.v2 ∧
    (demoScaffolder (ProjectVersion.unrecognized (lit "3"))).calls okEnv demoStart =
      [Event.Println (lit "Writing scaffold for you to edit..."),
       Event.Save (demoConfig (ProjectVersion.unrecognized (lit "3"))) none,
       Event.Execute
         { Config := some (demoConfig (ProjectVersion.unrecognized (lit "3"))).Config,
           Boilerplate := [] }
         [File.project_Boilerplate { Path := lit "hack/boilerplate.go.txt" }
           (lit "apache2") (lit "me")] none,
       Event.ReadFile (lit "hack/boilerplate.go.txt") (Except.ok (lit "apache2me")),
       Event.Execute
         { Config := some (demoConfig (ProjectVersion.unrecognized (lit "3"))).Config,
           Boilerplate := lit "apache2me" }
         [File.project_GitIgnore, File.project_AuthProxyRole,
          File.project_AuthProxyRoleBinding] none] ∧
    ¬ (∀ before after path res,
        (demoScaffolder (ProjectVersion.unrecognized (lit "3"))).calls okEnv demoStart
          = before ++ Event.ReadFile path res :: after →
        ∀ u files r, Event.Execute u files r ∉ after) := by
  refine ⟨by decide, by decide, by decide, ?_⟩
  intro h
  exact h
    [Event.Println (lit "Writing scaffold for you to edit..."),
     Event.Save (demoConfig (ProjectVersion.unrecognized (lit "3"))) none,
     Event.Execute
       { Config := some (demoConfig (ProjectVersion.unrecognized (lit "3"))).Config,
         Boilerplate := [] }
       [File.project_Boilerplate { Path := lit "hack/boilerplate.go.txt" }
         (lit "apache2") (lit "me")] none]
    [Event.Execute
       { Config := some (demoConfig (ProjectVersion.unrecognized (lit "3"))).Config,
         Boilerplate := lit "apache2me" }
       [File.project_GitIgnore, File.project_AuthProxyRole,
        File.project_AuthProxyRoleBinding] none]
    (lit "hack/boilerplate.go.txt") (Except.ok (lit "apache2me")) (by decide)
    _ _ _ (List.mem_singleton.mpr rfl)

/-- C3, amended: for a schema version that is neither v1 nor v2, when Save, the
bootstrap batch and the read-back succeed, exactly one more executor
invocation follows the read-back: the static project batch (GitIgnore,
AuthProxyRole, AuthProxyRoleBinding) with a Context carrying the loaded
boilerplate text.  No unit of either version catalog is executed.  Scaffold
returns the error of that batch if it fails and the unknown-version error
otherwise. -/
theorem C3_unknown_version_after_static_batch {W : Type} (env : Collaborators W)
    (s : initScaffolder) (st : Sys W) (text : GoString) (w1 w2 : W)
    (hS : env.Save s.config st.world = (none, w1))
    (hB : env.Execute s.newUniverse
        [File.project_Boilerplate { Path := s.boilerplatePath } s.license s.owner] w1
        = (none, w2))
    (hR : env.ReadFile s.boilerplatePath w2 = Except.ok text)
    (hV1 : s.config.Config.Version ≠ ProjectVersion.v1)
    (hV2 : s.config.Config.Version ≠ ProjectVersion.v2) :
    s.calls env st =
      [Event.Println (lit "Writing scaffold for you to edit..."),
       Event.Save s.config none,
       Event.Execute s.newUniverse
         [File.project_Boilerplate { Path := s.boilerplatePath } s.license s.owner] none,
       Event.ReadFile s.boilerplatePath (Except.ok text),
       Event.Execute { Config := some s.config.Config, Boilerplate := text }
         [File.project_GitIgnore, File.project_AuthProxyRole,
          File.project_AuthProxyRoleBinding]
         (env.Execute { Config := some s.config.Config, Boilerplate := text }
           [File.project_GitIgnore, File.project_AuthProxyRole,
            File.project_AuthProxyRoleBinding] w2).1] ∧
    (s.Scaffold env st).err =
      some ((env.Execute { Config := some s.config.Config, Boilerplate := text }
          [File.project_GitIgnore, File.project_AuthProxyRole,
           File.project_AuthProxyRoleBinding] w2).1.getD
        (fmtErrorf (lit "unknown project version %v") s.config.Config.Version)) ∧
    (∀ u files res, Event.Execute u files res ∈ s.calls env st →
      ∀ f ∈ files, f ∉ s.scaffoldV1Files ∧ f ∉ s.scaffoldV2Files) := by
  have h1 : s.config.IsV1 = false := by simp [Config.IsV1, hV1]
  have h2 : s.config.IsV2 = false := by simp [Config.IsV2, hV2]
  rcases hG : env.Execute { Config := some s.config.Config, Boilerplate := text }
      [File.project_GitIgnore, File.project_AuthProxyRole, File.project_AuthProxyRoleBinding] w2
    with ⟨_ | e4, w3⟩
  · have hD := Scaffold_dispatch env s st text w1 w2 w3 hS hB hR hG
    refine ⟨by simp [initScaffolder.calls, hD, h1, h2], by simp [hD, h1, h2], ?_⟩
    intro u files res hmem f hf
    simp only [initScaffolder.calls, hD, h1, h2, or_self, Bool.false_eq_true,
      if_false, List.drop_left, List.mem_cons, List.mem_singleton, List.not_mem_nil, or_false,
      Event.Execute.injEq, false_or, reduceCtorEq, false_and] at hmem
    rcases hmem with ⟨-, rfl, -⟩ | ⟨-, rfl, -⟩
    · simp only [List.mem_singleton] at hf
      subst hf
      exact bootstrap_not_in_catalogs s _ _ _
    · exact static_not_in_catalogs s f hf
  · have hD := Scaffold_static_fails env s st e4 text w1 w2 w3 hS hB hR hG
    refine ⟨by simp [initScaffolder.calls, hD], by simp [hD], ?_⟩
    intro u files res hmem f hf
    simp only [initScaffolder.calls, hD, List.drop_left, List.mem_cons, List.mem_singleton,
      List.not_mem_nil, or_false, Event.Execute.injEq, false_or, reduceCtorEq,
      false_and] at hmem
    rcases hmem with ⟨-, rfl, -⟩ | ⟨-, rfl, -⟩
    · simp only [List.mem_singleton] at hf
      subst hf
      exact bootstrap_not_in_catalogs s _ _ _
    · exact static_not_in_catalogs s f hf

/-- Witness for C3, amended: schema version "3" on the small filesystem. -/
theorem C3_unknown_version_after_static_batch_witness :
    (okEnv.Save (demoScaffolder (ProjectVersion.unrecognized (lit "3"))).config
        demoStart.world = (none, []) ∧
     okEnv.Execute (demoScaffolder (ProjectVersion.unrecognized (lit "3"))).newUniverse
        [File.project_Boilerplate
          { Path := (demoScaffolder (ProjectVersion.unrecognized (lit "3"))).boilerplatePath }
          (demoScaffolder (ProjectVersion.unrecognized (lit "3"))).license
          (demoScaffolder (ProjectVersion.unrecognized (lit "3"))).owner] []
        = (none, demoDisk) ∧
     okEnv.ReadFile (demoScaffolder (ProjectVersion.unrecognized (lit "3"))).boilerplatePath
        demoDisk = Except.ok demoText ∧
     (demoScaffolder (ProjectVersion.unrecognized (lit "3"))).config.Config.Version
        ≠ ProjectVersion.v1 ∧
     (demoScaffolder (ProjectVersion.unrecognized (lit "3"))).config.Config.Version
        ≠ ProjectVersion.v2) ∧
    ((demoScaffolder (ProjectVersion.unrecognized (lit "3"))).Scaffold okEnv demoStart).err =
      some (fmtErrorf (lit "unknown project version %v")
        (ProjectVersion.unrecognized (lit "3"))) :=
  ⟨⟨rfl, rfl, rfl, by decide, by decide⟩,
   (C3_unknown_version_after_static_batch okEnv
      (demoScaffolder (ProjectVersion.unrecognized (lit "3"))) demoStart demoText [] demoDisk
      rfl rfl rfl (by decide) (by decide)).2.1⟩

/-- Counterexample to C4 as stated: a successful v1 run makes three executor
invocations, not two, and the first one holds the boilerplate unit alone: the
ignore-file unit and the role units are not in it. -/
theorem C4_counterexample :
    ((demoScaffolder ProjectVersion.v1).Scaffold okEnv demoStart).err = none ∧
    (executions ((demoScaffolder ProjectVersion.v1).calls okEnv demoStart)).map Prod.snd =
      [[File.project_Boilerplate { Path := lit "hack/boilerplate.go.txt" }
          (lit "apache2") (lit "me")],
       [File.project_GitIgnore, File.project_AuthProxyRole, File.project_AuthProxyRoleBinding],
       (demoScaffolder ProjectVersion.v1).scaffoldV1Files] ∧
    ¬ (∃ u files,
        (executions ((demoScaffolder ProjectVersion.v1).calls okEnv demoStart)).head?
          = some (u, files) ∧
        u.Boilerplate = [] ∧
        File.project_GitIgnore ∈ files ∧ File.project_AuthProxyRole ∈ files ∧
        File.project_AuthProxyRoleBinding ∈ files ∧
        (executions ((demoScaffolder ProjectVersion.v1).calls okEnv demoStart)).length = 2) := by
  refine ⟨by decide, by decide, ?_⟩
  rintro ⟨u, files, -, -, -, -, -, hlen⟩
  exact absurd hlen (by decide)

/-- C4, amended: the executor invocations of a run are, in order, an initial
part of: the bootstrap batch, which holds the boilerplate unit alone and gets
the Context built before the read-back; the static batch (GitIgnore,
AuthProxyRole, AuthProxyRoleBinding), which gets the Context built after the
read-back, carrying the loaded boilerplate text; the version-specific catalog
batch, with that same Context.  A successful run consists of exactly these
three invocations. -/
theorem C4_three_batches {W : Type} (env : Collaborators W) (s : initScaffolder)
    (st : Sys W) :
    executions (s.calls env st) <+:
      [(s.newUniverse,
         [File.project_Boilerplate { Path := s.boilerplatePath } s.license s.owner]),
       ({ Config := some s.config.Config, Boilerplate := (s.Scaffold env st).s.boilerplate },
         [File.project_GitIgnore, File.project_AuthProxyRole,
          File.project_AuthProxyRoleBinding]),
       ({ Config := some s.config.Config, Boilerplate := (s.Scaffold env st).s.boilerplate },
         if s.config.IsV1 = true then s.scaffoldV1Files else s.scaffoldV2Files)] ∧
    (∀ text, env.ReadFile s.boilerplatePath
        (env.Execute s.newUniverse
          [File.project_Boilerplate { Path := s.boilerplatePath } s.license s.owner]
          (env.Save s.config st.world).2).2 = Except.ok text →
      2 ≤ (executions (s.calls env st)).length →
      (s.Scaffold env st).s.boilerplate = text) ∧
    ((s.Scaffold env st).err = none →
      executions (s.calls env st) =
        [(s.newUniverse,
           [File.project_Boilerplate { Path := s.boilerplatePath } s.license s.owner]),
         ({ Config := some s.config.Config, Boilerplate := (s.Scaffold env st).s.boilerplate },
           [File.project_GitIgnore, File.project_AuthProxyRole,
            File.project_AuthProxyRoleBinding]),
         ({ Config := some s.config.Config, Boilerplate := (s.Scaffold env st).s.boilerplate },
           if s.config.IsV1 = true then s.scaffoldV1Files else s.scaffoldV2Files)]) := by
  rcases Scaffold_paths env s st with
    ⟨e, hs, he, hs2, hc⟩ | ⟨e, hs, he, hs2, hc⟩ | ⟨e, hs, he, hs2, hc⟩ |
    ⟨e, t, hs, hr, he, hs2, hc⟩ | ⟨t, r, hs, hr, hv, he, hs2, hc⟩ |
    ⟨t, hs, hr, hv1, hv2, he, hs2, hc⟩
  · rw [hc, he, hs2]
    simp [executions]
  · rw [hc, he, hs2]
    refine ⟨?_, by simp [executions], by simp⟩
    exact ⟨[_, _], rfl⟩
  · rw [hc, he, hs2]
    refine ⟨?_, by simp [executions], by simp⟩
    exact ⟨[_, _], rfl⟩
  · rw [hc, he, hs2]
    refine ⟨⟨[_], rfl⟩, ?_, by simp⟩
    intro text htext _
    rw [hr] at htext
    exact (Except.ok.inj htext)
  · rw [hc, he, hs2]
    refine ⟨⟨[], rfl⟩, ?_, fun _ => rfl⟩
    intro text htext _
    rw [hr] at htext
    exact (Except.ok.inj htext)
  · rw [hc, he, hs2]
    refine ⟨⟨[_], rfl⟩, ?_, by simp [fmtErrorf]⟩
    intro text htext _
    rw [hr] at htext
    exact (Except.ok.inj htext)

/-- Witness for C4, amended: a successful v1 run on the small filesystem. -/
theorem C4_three_batches_witness :
    ((demoScaffolder ProjectVersion.v1).Scaffold okEnv demoStart).err = none ∧
    executions ((demoScaffolder ProjectVersion.v1).calls okEnv demoStart) =
      [((demoScaffolder ProjectVersion.v1).newUniverse,
         [File.project_Boilerplate
           { Path := (demoScaffolder ProjectVersion.v1).boilerplatePath }
           (demoScaffolder ProjectVersion.v1).license
           (demoScaffolder ProjectVersion.v1).owner]),
       ({ Config := some (demoScaffolder ProjectVersion.v1).config.Config,
          Boilerplate :=
            ((demoScaffolder ProjectVersion.v1).Scaffold okEnv demoStart).s.boilerplate },
         [File.project_GitIgnore, File.project_AuthProxyRole,
          File.project_AuthProxyRoleBinding]),
       ({ Config := some (demoScaffolder ProjectVersion.v1).config.Config,
          Boilerplate :=
            ((demoScaffolder ProjectVersion.v1).Scaffold okEnv demoStart).s.boilerplate },
         if (demoScaffolder ProjectVersion.v1).config.IsV1 = true
         then (demoScaffolder ProjectVersion.v1).scaffoldV1Files
         else (demoScaffolder ProjectVersion.v1).scaffoldV2Files)] :=
  ⟨by decide,
   (C4_three_batches okEnv (demoScaffolder ProjectVersion.v1) demoStart).2.2 (by decide)⟩

/-- The first run on a fresh scaffolder hands the boilerplate unit a Context
whose boilerplate text is empty, whatever the collaborators do. -/
theorem fresh_bootstrap_context_empty {W : Type} (env : Collaborators W) (cfg : Config)
    (license owner : GoString) (st : Sys W) :
    ∀ u files, (executions ((NewInitScaffolder env cfg license owner).calls env st)).head?
        = some (u, files) → u.Boilerplate = [] := by
  intro u files h
  rcases Scaffold_paths env (NewInitScaffolder env cfg license owner) st with
    ⟨e, -, -, -, hc⟩ | ⟨e, -, -, -, hc⟩ | ⟨e, -, -, -, hc⟩ |
    ⟨e, t, -, -, -, -, hc⟩ | ⟨t, r, -, -, -, -, -, hc⟩ | ⟨t, -, -, -, -, -, -, hc⟩ <;>
  · rw [hc] at h
    simp [executions, newUniverse_eq, NewInitScaffolder] at h <;> rw [← h.1]

/-- C5 at its failing input: a scaffolder from NewInitScaffolder is run twice on
the small filesystem.  In the first run the boilerplate unit gets a Context
with empty boilerplate text; in the second run it gets the text read back by
the first run, which is not empty. -/
theorem C5_rerun_bootstrap_context_not_empty :
    (executions ((demoScaffolder ProjectVersion.v1).calls okEnv demoStart)).head? =
      some ({ Config := some (demoConfig ProjectVersion.v1).Config, Boilerplate := [] },
        [File.project_Boilerplate { Path := lit "hack/boilerplate.go.txt" }
          (lit "apache2") (lit "me")]) ∧
    (executions
      (((demoScaffolder ProjectVersion.v1).rerun okEnv 1 demoStart).1.calls okEnv
        ((demoScaffolder ProjectVersion.v1).rerun okEnv 1 demoStart).2)).head? =
      some ({ Config := some (demoConfig ProjectVersion.v1).Config,
              Boilerplate := lit "apache2me" },
        [File.project_Boilerplate { Path := lit "hack/boilerplate.go.txt" }
          (lit "apache2") (lit "me")]) ∧
    lit "apache2me" ≠ [] := by
  refine ⟨by decide, by decide, by decide⟩

/-- C6: bootstrap ordering.  Whenever a run executes a version-specific catalog,
the Context of that invocation carries as boilerplate text exactly what
ReadFile yields for the boilerplate path on the world left by the bootstrap
invocation, and its configuration is the configuration of the initial
Context, the one the scaffolder holds. -/
theorem C6_catalog_context_carries_read_back {W : Type} (env : Collaborators W)
    (s : initScaffolder) (st : Sys W) (u : Universe) (files : List File)
    (res : Option GoError)
    (hmem : Event.Execute u files res ∈ s.calls env st)
    (hcat : files = s.scaffoldV1Files ∨ files = s.scaffoldV2Files) :
    env.ReadFile s.boilerplatePath
        (env.Execute s.newUniverse
          [File.project_Boilerplate { Path := s.boilerplatePath } s.license s.owner]
          (env.Save s.config st.world).2).2 = Except.ok u.Boilerplate ∧
    u.Config = s.newUniverse.Config ∧
    u.Config = some s.config.Config ∧
    (executions (s.calls env st)).head? =
      some (s.newUniverse,
        [File.project_Boilerplate { Path := s.boilerplatePath } s.license s.owner]) := by
  have hne : ∀ fs : List File,
      (fs = [File.project_Boilerplate { Path := s.boilerplatePath } s.license s.owner] ∨
       fs = [File.project_GitIgnore, File.project_AuthProxyRole,
             File.project_AuthProxyRoleBinding]) →
      ¬ (fs = s.scaffoldV1Files ∨ fs = s.scaffoldV2Files) := by
    rintro fs (h | h) <;> subst h <;>
      simp [initScaffolder.scaffoldV1Files, initScaffolder.scaffoldV2Files]
  rcases Scaffold_paths env s st with
    ⟨e, -, -, -, hc⟩ | ⟨e, -, -, -, hc⟩ | ⟨e, -, -, -, hc⟩ |
    ⟨e, t, -, hr, -, -, hc⟩ | ⟨t, r, -, hr, hv, -, -, hc⟩ | ⟨t, -, hr, -, -, -, -, hc⟩
  · rw [hc] at hmem
    simp at hmem
  · rw [hc] at hmem
    simp at hmem
    exact absurd hcat (hne files (Or.inl hmem.2.1))
  · rw [hc] at hmem
    simp at hmem
    exact absurd hcat (hne files (Or.inl hmem.2.1))
  · rw [hc] at hmem
    simp at hmem
    rcases hmem with h | h
    · exact absurd hcat (hne files (Or.inl h.2.1))
    · exact absurd hcat (hne files (Or.inr h.2.1))
  · rw [hc] at hmem ⊢
    simp only [List.mem_cons, List.mem_singleton, List.not_mem_nil, or_false,
      Event.Execute.injEq, false_or, reduceCtorEq] at hmem
    rcases hmem with h | h | h
    · exact absurd hcat (hne files (Or.inl h.2.1))
    · exact absurd hcat (hne files (Or.inr h.2.1))
    · rw [h.1]
      exact ⟨hr, by simp [newUniverse_eq], rfl, by simp [executions]⟩
  · rw [hc] at hmem
    simp at hmem
    rcases hmem with h | h
    · exact absurd hcat (hne files (Or.inl h.2.1))
    · exact absurd hcat (hne files (Or.inr h.2.1))

/-- Witness for C6: the catalog invocation of a v1 run on the small filesystem. -/
theorem C6_catalog_context_carries_read_back_witness :
    (Event.Execute
        { Config := some (demoConfig ProjectVersion.v1).Config, Boilerplate := demoText }
        (demoScaffolder ProjectVersion.v1).scaffoldV1Files none
      ∈ (demoScaffolder ProjectVersion.v1).calls okEnv demoStart) ∧
    okEnv.ReadFile (demoScaffolder ProjectVersion.v1).boilerplatePath
        (okEnv.Execute (demoScaffolder ProjectVersion.v1).newUniverse
          [File.project_Boilerplate
            { Path := (demoScaffolder ProjectVersion.v1).boilerplatePath }
            (demoScaffolder ProjectVersion.v1).license
            (demoScaffolder ProjectVersion.v1).owner]
          (okEnv.Save (demoScaffolder ProjectVersion.v1).config demoStart.world).2).2
      = Except.ok demoText :=
  ⟨by decide,
   (C6_catalog_context_carries_read_back okEnv (demoScaffolder ProjectVersion.v1) demoStart
      { Config := some (demoConfig ProjectVersion.v1).Config, Boilerplate := demoText }
      (demoScaffolder ProjectVersion.v1).scaffoldV1Files none (by decide) (Or.inl rfl)).1⟩

/-- When all but the last element of a list fail a test, an element passing the
test can only be the last one. -/
theorem last_of_split {α : Type} (P : α → Prop) (z x : α) :
    ∀ (front before after : List α), (∀ e ∈ front, ¬ P e) → P x →
      front ++ [z] = before ++ x :: after → after = [] ∧ x = z := by
  intro front
  induction front with
  | nil =>
    intro before after _ _ h
    cases before with
    | nil =>
      simp only [List.nil_append, List.cons.injEq] at h
      exact ⟨h.2.symm, h.1.symm⟩
    | cons b bs =>
      simp at h
  | cons a rest ih =>
    intro before after hfront hx h
    cases before with
    | nil =>
      simp only [List.nil_append, List.cons_append, List.cons.injEq] at h
      exact absurd (h.1 ▸ hx) (hfront a (List.mem_cons_self a rest))
    | cons b bs =>
      simp only [List.cons_append, List.cons.injEq] at h
      exact ih bs after (fun e he => hfront e (List.mem_cons_of_mem a he)) hx h.2

/-- C7: fail-fast across batches.  If an executor invocation of a run returns an
error, it is the last call of the run (no further executor invocation, no
read-back, no dispatch follows) and Scaffold returns exactly that error; and
no batch is executed twice in a run. -/
theorem C7_fail_fast {W : Type} (env : Collaborators W) (s : initScaffolder) (st : Sys W) :
    (∀ (before after : List Event) (u : Universe) (files : List File) (err : GoError),
      s.calls env st = before ++ Event.Execute u files (some err) :: after →
      after = [] ∧ (s.Scaffold env st).err = some err) ∧
    ((executions (s.calls env st)).map Prod.snd).Nodup := by
  refine ⟨?_, ?_⟩
  · intro before after u files err h
    have key := fun front z hfront =>
      last_of_split (fun e => ∃ u files err, e = Event.Execute u files (some err)) z
        (Event.Execute u files (some err)) front before after hfront ⟨u, files, err, rfl⟩
    rcases Scaffold_paths env s st with
      ⟨e, -, he, -, hc⟩ | ⟨e, -, he, -, hc⟩ | ⟨e, -, he, -, hc⟩ |
      ⟨e, t, -, -, he, -, hc⟩ | ⟨t, r, -, -, hv, he, -, hc⟩ | ⟨t, -, -, -, -, he, -, hc⟩
    · rw [hc] at h
      have := key [_] _ (by simp) h
      simp at this
    · rw [hc] at h
      have := key [_, _] _ (by simp) h
      simp only [Event.Execute.injEq, Option.some.injEq] at this
      exact ⟨this.1, by rw [he, this.2.2.2]⟩
    · rw [hc] at h
      have := key [_, _, _] _ (by simp) h
      simp at this
    · rw [hc] at h
      have := key [_, _, _, _] _ (by simp) h
      simp only [Event.Execute.injEq, Option.some.injEq] at this
      exact ⟨this.1, by rw [he, this.2.2.2]⟩
    · rw [hc] at h
      have := key [_, _, _, _, _] _ (by simp) h
      simp only [Event.Execute.injEq] at this
      exact ⟨this.1, by rw [he, this.2.2.2]⟩
    · rw [hc] at h
      have := key [_, _, _, _] _ (by simp) h
      simp at this
  · rcases Scaffold_paths env s st with
      ⟨e, -, -, -, hc⟩ | ⟨e, -, -, -, hc⟩ | ⟨e, -, -, -, hc⟩ |
      ⟨e, t, -, -, -, -, hc⟩ | ⟨t, r, -, -, -, -, -, hc⟩ | ⟨t, -, -, -, -, -, -, hc⟩ <;>
    rw [hc] <;>
    by_cases h1 : s.config.IsV1 = true <;>
    simp [executions, h1, initScaffolder.scaffoldV1Files, initScaffolder.scaffoldV2Files]

/-- Witness for C7: the role unit of the static batch fails on the small
filesystem; the run stops there with the error of the executor. -/
theorem C7_fail_fast_witness :
    (demoScaffolder ProjectVersion.v2).calls
        roleFailsEnv demoStart =
      [Event.Println (lit "Writing scaffold for you to edit..."),
       Event.Save (demoConfig ProjectVersion.v2) none,
       Event.Execute
         { Config := some (demoConfig ProjectVersion.v2).Config, Boilerplate := [] }
         [File.project_Boilerplate { Path := lit "hack/boilerplate.go.txt" }
           (lit "apache2") (lit "me")] none,
       Event.ReadFile (lit "hack/boilerplate.go.txt") (Except.ok demoText)] ++
      Event.Execute
         { Config := some (demoConfig ProjectVersion.v2).Config, Boilerplate := demoText }
         [File.project_GitIgnore, File.project_AuthProxyRole,
          File.project_AuthProxyRoleBinding] (some unitFailed) :: [] ∧
    ((demoScaffolder ProjectVersion.v2).Scaffold
        roleFailsEnv demoStart).err
      = some unitFailed :=
  ⟨by decide,
   ((C7_fail_fast roleFailsEnv
      (demoScaffolder ProjectVersion.v2) demoStart).1
      [Event.Println (lit "Writing scaffold for you to edit..."),
       Event.Save (demoConfig ProjectVersion.v2) none,
       Event.Execute
         { Config := some (demoConfig ProjectVersion.v2).Config, Boilerplate := [] }
         [File.project_Boilerplate { Path := lit "hack/boilerplate.go.txt" }
           (lit "apache2") (lit "me")] none,
       Event.ReadFile (lit "hack/boilerplate.go.txt") (Except.ok demoText)]
      []
      { Config := some (demoConfig ProjectVersion.v2).Config, Boilerplate := demoText }
      [File.project_GitIgnore, File.project_AuthProxyRole, File.project_AuthProxyRoleBinding]
      unitFailed (by decide)).2⟩

/-- C8: if the boilerplate file cannot be read back after the bootstrap batch
succeeded, Scaffold returns the read error; the read is the last call of the
run, made once; the scaffolder, its boilerplate text included, is unchanged;
the world is as the bootstrap batch left it: no later batch is executed,
neither the static project files nor a version-specific catalog. -/
theorem C8_read_back_failure {W : Type} (env : Collaborators W) (s : initScaffolder)
    (st : Sys W) (err : GoError) (w1 w2 : W)
    (hS : env.Save s.config st.world = (none, w1))
    (hB : env.Execute s.newUniverse
        [File.project_Boilerplate { Path := s.boilerplatePath } s.license s.owner] w1
        = (none, w2))
    (hR : env.ReadFile s.boilerplatePath w2 = Except.error err) :
    (s.Scaffold env st).err = some err ∧
    (s.Scaffold env st).s = s ∧
    (s.Scaffold env st).s.boilerplate = s.boilerplate ∧
    (s.Scaffold env st).sys.world = w2 ∧
    s.calls env st =
      [Event.Println (lit "Writing scaffold for you to edit..."),
       Event.Save s.config none,
       Event.Execute s.newUniverse
         [File.project_Boilerplate { Path := s.boilerplatePath } s.license s.owner] none,
       Event.ReadFile s.boilerplatePath (Except.error err)] ∧
    executions (s.calls env st) =
      [(s.newUniverse,
        [File.project_Boilerplate { Path := s.boilerplatePath } s.license s.owner])] := by
  have hD := Scaffold_read_fails env s st err w1 w2 hS hB hR
  simp [initScaffolder.calls, hD, executions]

/-- Witness for C8: an executor that reports success without leaving the file. -/
theorem C8_read_back_failure_witness :
    ((demoEnv none (fun _ => false) false).Save (demoScaffolder ProjectVersion.v1).config
        demoStart.world = (none, []) ∧
     (demoEnv none (fun _ => false) false).Execute
        (demoScaffolder ProjectVersion.v1).newUniverse
        [File.project_Boilerplate { Path := (demoScaffolder ProjectVersion.v1).boilerplatePath }
          (demoScaffolder ProjectVersion.v1).license (demoScaffolder ProjectVersion.v1).owner] []
        = (none, []) ∧
     (demoEnv none (fun _ => false) false).ReadFile
        (demoScaffolder ProjectVersion.v1).boilerplatePath []
        = Except.error (GoError.collaborator (lit "no such file"))) ∧
    ((demoScaffolder ProjectVersion.v1).Scaffold (demoEnv none (fun _ => false) false)
        demoStart).err = some (GoError.collaborator (lit "no such file")) ∧
    ((demoScaffolder ProjectVersion.v1).Scaffold (demoEnv none (fun _ => false) false)
        demoStart).s = demoScaffolder ProjectVersion.v1 :=
  ⟨⟨rfl, rfl, rfl⟩,
   (C8_read_back_failure (demoEnv none (fun _ => false) false)
      (demoScaffolder ProjectVersion.v1) demoStart (GoError.collaborator (lit "no such file"))
      [] [] rfl rfl rfl).1,
   (C8_read_back_failure (demoEnv none (fun _ => false) false)
      (demoScaffolder ProjectVersion.v1) demoStart (GoError.collaborator (lit "no such file"))
      [] [] rfl rfl rfl).2.1⟩

/-! ## What a run leaves alone -/

theorem Scaffold_keeps_fields {W : Type} (env : Collaborators W) (s : initScaffolder)
    (st : Sys W) :
    (s.Scaffold env st).s.config = s.config ∧
    (s.Scaffold env st).s.boilerplatePath = s.boilerplatePath ∧
    (s.Scaffold env st).s.license = s.license ∧
    (s.Scaffold env st).s.owner = s.owner := by
  rcases Scaffold_paths env s st with
    ⟨e, -, -, h, -⟩ | ⟨e, -, -, h, -⟩ | ⟨e, -, -, h, -⟩ |
    ⟨e, t, -, -, -, h, -⟩ | ⟨t, r, -, -, -, -, h, -⟩ | ⟨t, -, -, -, -, -, h, -⟩ <;>
  simp [h]

theorem rerun_keeps_fields {W : Type} (env : Collaborators W) (n : Nat) :
    ∀ (s : initScaffolder) (st : Sys W),
      (s.rerun env n st).1.config = s.config ∧
      (s.rerun env n st).1.boilerplatePath = s.boilerplatePath ∧
      (s.rerun env n st).1.license = s.license ∧
      (s.rerun env n st).1.owner = s.owner := by
  induction n with
  | zero => intro s st; simp [initScaffolder.rerun]
  | succ k ih =>
    intro s st
    have h1 := ih (s.Scaffold env st).s (s.Scaffold env st).sys
    have h2 := Scaffold_keeps_fields env s st
    simp only [initScaffolder.rerun]
    exact ⟨h1.1.trans h2.1, h1.2.1.trans h2.2.1, h1.2.2.1.trans h2.2.2.1,
      h1.2.2.2.trans h2.2.2.2⟩

theorem calls_mention_one_path {W : Type} (env : Collaborators W) (s : initScaffolder)
    (st : Sys W) :
    ∀ e ∈ s.calls env st, ∀ p ∈ e.boilerplatePaths, p = s.boilerplatePath := by
  rcases Scaffold_paths env s st with
    ⟨e, -, -, -, hc⟩ | ⟨e, -, -, -, hc⟩ | ⟨e, -, -, -, hc⟩ |
    ⟨e, t, -, -, -, -, hc⟩ | ⟨t, r, -, -, -, -, -, hc⟩ | ⟨t, -, -, -, -, -, -, hc⟩ <;>
  rw [hc] <;>
  by_cases h1 : s.config.IsV1 = true <;>
  simp [Event.boilerplatePaths, File.boilerplatePaths, h1, initScaffolder.scaffoldV1Files,
    initScaffolder.scaffoldV2Files]

theorem calls_batches {W : Type} (env : Collaborators W) (s : initScaffolder) (st : Sys W) :
    ∀ u files res, Event.Execute u files res ∈ s.calls env st →
      files = [File.project_Boilerplate { Path := s.boilerplatePath } s.license s.owner] ∨
      files = [File.project_GitIgnore, File.project_AuthProxyRole,
               File.project_AuthProxyRoleBinding] ∨
      files = s.scaffoldV1Files ∨ files = s.scaffoldV2Files := by
  rcases Scaffold_paths env s st with
    ⟨e, -, -, -, hc⟩ | ⟨e, -, -, -, hc⟩ | ⟨e, -, -, -, hc⟩ |
    ⟨e, t, -, -, -, -, hc⟩ | ⟨t, r, -, -, -, -, -, hc⟩ | ⟨t, -, -, -, -, -, -, hc⟩ <;>
  rw [hc] <;>
  intro u files res hmem <;>
  by_cases h1 : s.config.IsV1 = true <;>
  simp only [List.mem_cons, List.mem_singleton, List.not_mem_nil, or_false,
    Event.Execute.injEq, false_or, reduceCtorEq, false_and, h1, if_true, if_false] at hmem <;>
  tauto

theorem calls_bootstrap_unit {W : Type} (env : Collaborators W) (s : initScaffolder)
    (st : Sys W) :
    ∀ u files res, Event.Execute u files res ∈ s.calls env st →
      ∀ inp l o, File.project_Boilerplate inp l o ∈ files →
        inp.Path = s.boilerplatePath ∧ l = s.license ∧ o = s.owner := by
  intro u files res hmem inp l o hf
  rcases calls_batches env s st u files res hmem with h | h | h | h
  · subst h
    simp only [List.mem_singleton, File.project_Boilerplate.injEq] at hf
    obtain ⟨h1, h2, h3⟩ := hf
    subst h1 h2 h3
    exact ⟨rfl, rfl, rfl⟩
  · subst h
    simp at hf
  · subst h
    exact absurd hf (bootstrap_not_in_catalogs s _ _ _).1
  · subst h
    exact absurd hf (bootstrap_not_in_catalogs s _ _ _).2

theorem first_batch_is_bootstrap {W : Type} (env : Collaborators W) (s : initScaffolder)
    (st : Sys W) :
    ∀ u files, (executions (s.calls env st)).head? = some (u, files) →
      u = s.newUniverse ∧
      files = [File.project_Boilerplate { Path := s.boilerplatePath } s.license s.owner] := by
  rcases Scaffold_paths env s st with
    ⟨e, -, -, -, hc⟩ | ⟨e, -, -, -, hc⟩ | ⟨e, -, -, -, hc⟩ |
    ⟨e, t, -, -, -, -, hc⟩ | ⟨t, r, -, -, -, -, -, hc⟩ | ⟨t, -, -, -, -, -, -, hc⟩ <;>
  rw [hc] <;>
  intro u files hh <;>
  simp [executions] at hh <;>
  exact ⟨hh.1.symm, hh.2.symm⟩

theorem bootstrap_runs_after_save {W : Type} (env : Collaborators W) (s : initScaffolder)
    (st : Sys W) (hsave : (env.Save s.config st.world).1 = none) :
    ∃ res, Event.Execute s.newUniverse
        [File.project_Boilerplate { Path := s.boilerplatePath } s.license s.owner] res
      ∈ s.calls env st := by
  rcases Scaffold_paths env s st with
    ⟨e, hs, -, -, hc⟩ | ⟨e, hs, -, -, hc⟩ | ⟨e, hs, -, -, hc⟩ |
    ⟨e, t, hs, -, -, -, hc⟩ | ⟨t, r, hs, -, -, -, -, hc⟩ | ⟨t, hs, -, -, -, -, -, hc⟩
  · rw [hs] at hsave
    simp at hsave
  all_goals
    rw [hc]
    exact ⟨_, List.mem_cons_of_mem _ (List.mem_cons_of_mem _ (List.mem_cons_self _ _))⟩

theorem v1Files_image (s : initScaffolder) :
    (∀ img, File.managerv1_Config img ∈ s.scaffoldV1Files ↔ img = ImageName) ∧
    (∀ img, File.project_Makefile img ∈ s.scaffoldV1Files ↔ img = ImageName) ∧
    (∀ p, File.managerv1_APIs p ∈ s.scaffoldV1Files ↔ p = s.boilerplatePath) := by
  simp [initScaffolder.scaffoldV1Files]

theorem v2Files_image (s : initScaffolder) :
    (∀ img, File.managerv2_Config img ∈ s.scaffoldV2Files ↔ img = ImageName) ∧
    (∀ img p t, File.scaffoldv2_Makefile img p t ∈ s.scaffoldV2Files ↔
      img = ImageName ∧ p = s.boilerplatePath ∧ t = ControllerToolsVersion) := by
  simp [initScaffolder.scaffoldV2Files]

theorem join_hack_boilerplate (sep : GoString) :
    filepathJoin sep [lit "hack", lit "boilerplate.go.txt"]
      = lit "hack" ++ sep ++ lit "boilerplate.go.txt" := by
  have h1 : (lit "hack").isEmpty = false := by decide
  have h2 : (lit "boilerplate.go.txt").isEmpty = false := by decide
  simp [filepathJoin, List.filter, h1, h2, List.intercalate, List.intersperse]

/-- C9: one fixed boilerplate path.  Take a scaffolder built by
NewInitScaffolder and run Scaffold on it any number of times.  In every run
the scaffolder holds the path filepath.Join("hack", "boilerplate.go.txt")
before and after; the boilerplate unit of the first batch is declared at that
path; every path read back and every boilerplate path handed to an executed
unit is that path; and the v1 APIs unit and the v2 Makefile unit of the
catalogs are given that path. -/
theorem C9_one_boilerplate_path {W : Type} (env : Collaborators W) (cfg : Config)
    (license owner : GoString) (st : Sys W) (n : Nat) :
    (NewInitScaffolder env cfg license owner).boilerplatePath
      = filepathJoin env.Separator [lit "hack", lit "boilerplate.go.txt"] ∧
    filepathJoin env.Separator [lit "hack", lit "boilerplate.go.txt"]
      = lit "hack" ++ env.Separator ++ lit "boilerplate.go.txt" ∧
    ((NewInitScaffolder env cfg license owner).rerun env n st).1.boilerplatePath
      = filepathJoin env.Separator [lit "hack", lit "boilerplate.go.txt"] ∧
    ((((NewInitScaffolder env cfg license owner).rerun env n st).1).Scaffold env
        ((NewInitScaffolder env cfg license owner).rerun env n st).2).s.boilerplatePath
      = filepathJoin env.Separator [lit "hack", lit "boilerplate.go.txt"] ∧
    (∀ e ∈ (((NewInitScaffolder env cfg license owner).rerun env n st).1).calls env
        ((NewInitScaffolder env cfg license owner).rerun env n st).2,
      ∀ p ∈ e.boilerplatePaths,
        p = filepathJoin env.Separator [lit "hack", lit "boilerplate.go.txt"]) ∧
    (∀ u files,
      (executions ((((NewInitScaffolder env cfg license owner).rerun env n st).1).calls env
        ((NewInitScaffolder env cfg license owner).rerun env n st).2)).head? = some (u, files) →
      files.map File.boilerplatePaths
        = [[filepathJoin env.Separator [lit "hack", lit "boilerplate.go.txt"]]]) ∧
    File.managerv1_APIs (filepathJoin env.Separator [lit "hack", lit "boilerplate.go.txt"])
      ∈ (((NewInitScaffolder env cfg license owner).rerun env n st).1).scaffoldV1Files ∧
    File.scaffoldv2_Makefile ImageName
        (filepathJoin env.Separator [lit "hack", lit "boilerplate.go.txt"])
        ControllerToolsVersion
      ∈ (((NewInitScaffolder env cfg license owner).rerun env n st).1).scaffoldV2Files := by
  have hk := (rerun_keeps_fields env n (NewInitScaffolder env cfg license owner) st).2.1
  have h0 : (NewInitScaffolder env cfg license owner).boilerplatePath
      = filepathJoin env.Separator [lit "hack", lit "boilerplate.go.txt"] := rfl
  rw [h0] at hk
  refine ⟨rfl, join_hack_boilerplate env.Separator, hk, ?_, ?_, ?_, ?_, ?_⟩
  · rw [(Scaffold_keeps_fields env _ _).2.1, hk]
  · intro e he p hp
    rw [calls_mention_one_path env _ _ e he p hp, hk]
  · intro u files hh
    rw [(first_batch_is_bootstrap env _ _ u files hh).2]
    simp [File.boilerplatePaths, hk]
  · rw [← hk]
    exact ((v1Files_image _).2.2 _).mpr rfl
  · rw [← hk]
    exact ((v2Files_image _).2 _ _ _).mpr ⟨rfl, rfl, rfl⟩

/-- C10: in both catalogs the manager Config unit and the Makefile unit are
given the same image name, the constant "controller:latest", whatever the
scaffolder and its configuration; and in every run on a scaffolder built by
NewInitScaffolder the first batch is the boilerplate unit with exactly the
license and owner that were passed to NewInitScaffolder (it is executed as
soon as Save succeeds), and no executed boilerplate unit has another license
or owner. -/
theorem C10_image_license_owner {W : Type} (env : Collaborators W) (cfg : Config)
    (license owner : GoString) (st : Sys W) (n : Nat) :
    ImageName = lit "controller:latest" ∧
    (∀ s : initScaffolder,
      (∀ img, File.managerv1_Config img ∈ s.scaffoldV1Files ↔ img = ImageName) ∧
      (∀ img, File.project_Makefile img ∈ s.scaffoldV1Files ↔ img = ImageName) ∧
      (∀ img, File.managerv2_Config img ∈ s.scaffoldV2Files ↔ img = ImageName) ∧
      (∀ img p t, File.scaffoldv2_Makefile img p t ∈ s.scaffoldV2Files ↔
        img = ImageName ∧ p = s.boilerplatePath ∧ t = ControllerToolsVersion)) ∧
    (∀ u files res,
      Event.Execute u files res ∈
        (((NewInitScaffolder env cfg license owner).rerun env n st).1).calls env
          ((NewInitScaffolder env cfg license owner).rerun env n st).2 →
      ∀ inp l o, File.project_Boilerplate inp l o ∈ files → l = license ∧ o = owner) ∧
    (∀ u files,
      (executions ((((NewInitScaffolder env cfg license owner).rerun env n st).1).calls env
        ((NewInitScaffolder env cfg license owner).rerun env n st).2)).head? = some (u, files) →
      files = [File.project_Boilerplate
        { Path := filepathJoin env.Separator [lit "hack", lit "boilerplate.go.txt"] }
        license owner]) ∧
    ((env.Save cfg ((NewInitScaffolder env cfg license owner).rerun env n st).2.world).1 = none →
      ∃ u res, Event.Execute u
          [File.project_Boilerplate
            { Path := filepathJoin env.Separator [lit "hack", lit "boilerplate.go.txt"] }
            license owner] res ∈
        (((NewInitScaffolder env cfg license owner).rerun env n st).1).calls env
          ((NewInitScaffolder env cfg license owner).rerun env n st).2) := by
  obtain ⟨hcfg, hpath, hlic, hown⟩ :=
    rerun_keeps_fields env n (NewInitScaffolder env cfg license owner) st
  have hcfg0 : (NewInitScaffolder env cfg license owner).config = cfg := rfl
  have hpath0 : (NewInitScaffolder env cfg license owner).boilerplatePath
      = filepathJoin env.Separator [lit "hack", lit "boilerplate.go.txt"] := rfl
  have hlic0 : (NewInitScaffolder env cfg license owner).license = license := rfl
  have hown0 : (NewInitScaffolder env cfg license owner).owner = owner := rfl
  rw [hcfg0] at hcfg
  rw [hpath0] at hpath
  rw [hlic0] at hlic
  rw [hown0] at hown
  refine ⟨rfl, ?_, ?_, ?_, ?_⟩
  · intro s
    exact ⟨(v1Files_image s).1, (v1Files_image s).2.1, (v2Files_image s).1, (v2Files_image s).2⟩
  · intro u files res hmem inp l o hf
    have h := calls_bootstrap_unit env _ _ u files res hmem inp l o hf
    exact ⟨h.2.1.trans hlic, h.2.2.trans hown⟩
  · intro u files hh
    rw [(first_batch_is_bootstrap env _ _ u files hh).2, hpath, hlic, hown]
  · intro hsave
    obtain ⟨res, hres⟩ := bootstrap_runs_after_save env _ _ (by rw [hcfg]; exact hsave)
    rw [hpath, hlic, hown] at hres
    exact ⟨_, res, hres⟩

/-- Witness for C10: the second run of a v2 scaffolder on the small filesystem. -/
theorem C10_image_license_owner_witness :
    (okEnv.Save (demoConfig ProjectVersion.v2)
        ((NewInitScaffolder okEnv (demoConfig ProjectVersion.v2) (lit "apache2")
          (lit "me")).rerun okEnv 1 demoStart).2.world).1 = none ∧
    ∃ u res, Event.Execute u
        [File.project_Boilerplate
          { Path := filepathJoin okEnv.Separator [lit "hack", lit "boilerplate.go.txt"] }
          (lit "apache2") (lit "me")] res ∈
      (((NewInitScaffolder okEnv (demoConfig ProjectVersion.v2) (lit "apache2")
          (lit "me")).rerun okEnv 1 demoStart).1).calls okEnv
        ((NewInitScaffolder okEnv (demoConfig ProjectVersion.v2) (lit "apache2")
          (lit "me")).rerun okEnv 1 demoStart).2 :=
  ⟨rfl, (C10_image_license_owner okEnv (demoConfig ProjectVersion.v2) (lit "apache2")
      (lit "me") demoStart 1).2.2.2.2 rfl⟩

end Kubebuilder
